import Mathlib

/-!
Verification of the roulette bet-geometry validator and payout evaluator
from `src/roulette.rs` (carribus/roulette_logic_rs).

Machine integers are modelled as `Nat`: `u8` subtraction wraps modulo 256
(release-build semantics, `wsub`), and the `u64` multiplication in
`win_value` wraps modulo 2^64.  A separate predicate `sub_underflows`
records whether an executed `u8` subtraction would underflow (a panic in a
debug build), following the source's short-circuit evaluation order.
The injected random source of `spin` is a caller-supplied `Nat`; the
source's `gen_range(0, 36)` (half-open range) is modelled as `draw % 36`.
-/

/-- Wrapping `u8` subtraction `a - b` (valid for `a b < 256`). -/
def wsub (a b : Nat) : Nat := (a + 256 - b) % 256

/-- `enum RouletteBetType` from `src/roulette.rs`; fixed-size `[u8; n]`
arrays are flattened into `n` separate `Nat` fields. -/
inductive RouletteBetType where
  | Straight (v : Nat)
  | Split (a b : Nat)
  | Street (a b c : Nat)
  | Basket (a b c : Nat)
  | Topline (a b c d : Nat)
  | Corner (a b c d : Nat)
  | Doubleline (a b c d e f : Nat)
  | Dozens (v : Nat)
  | Columns (v : Nat)
  | EvenOdd (v : Nat)
  | Highlow (v : Nat)
  | Redblack (v : Nat)
deriving DecidableEq, Repr

/-- `struct RouletteBet { bet_type, wager }`. -/
structure RouletteBet where
  bet_type : RouletteBetType
  wager : Nat
deriving DecidableEq, Repr

/-- `struct RouletteBetResult { bet, win }` (the borrowed bet is copied). -/
structure RouletteBetResult where
  bet : RouletteBet
  win : Nat
deriving DecidableEq, Repr

/-- `enum PlaceBetError`. -/
inductive PlaceBetError where
  | InvalidBetOption (bet : RouletteBet)
  | MaxBetOnOption (bet : RouletteBet) (max : Nat)
  | MinBetNotSatisfied (bet : RouletteBet) (min : Nat)
deriving DecidableEq, Repr

/-- `RouletteBet::win_value`: `wager * <per-category factor>`, a `u64`
product, hence reduced modulo 2^64. -/
def win_value (bet : RouletteBet) : Nat :=
  (bet.wager * (match bet.bet_type with
    | .Straight _ => 36
    | .Split _ _ => 18
    | .Street _ _ _ => 12
    | .Basket _ _ _ => 12
    | .Topline _ _ _ _ => 9
    | .Corner _ _ _ _ => 9
    | .Doubleline _ _ _ _ _ _ => 6
    | .Dozens _ => 3
    | .Columns _ => 3
    | .EvenOdd _ => 2
    | .Highlow _ => 2
    | .Redblack _ => 2)) % 2 ^ 64

/-- The `for n in start..stop` search of the `Dozens` arm of
`RouletteEvaluator::calculate_winnings`: returns `true` iff
`winning` is hit while `n` walks from `start` up to (excluding) `stop`. -/
def dozensLoop (winning n stop : Nat) : Bool :=
  if n < stop then
    if winning = n then true else dozensLoop winning (n + 1) stop
  else false
termination_by stop - n
decreasing_by omega

/-- The `while n <= 36 { .. n += 3 }` search of the `Columns` arm of
`RouletteEvaluator::calculate_winnings`. -/
def columnsLoop (winning n : Nat) : Bool :=
  if n ≤ 36 then
    if winning = n then true else columnsLoop winning (n + 3)
  else false
termination_by 37 - n
decreasing_by omega

/-- The per-category win condition of
`RouletteEvaluator::calculate_winnings` (the closures passed to
`calc_win`), as a function of the winning number, its colour and the
bet type.  For `Dozens` the `u8` expressions `(v-1)*12+1` and
`start+12` wrap modulo 256 as in the source. -/
def winsB (winning colour : Nat) : RouletteBetType → Bool
  | .Straight v => decide (v = winning)
  | .Dozens v =>
      dozensLoop winning ((wsub v 1 * 12 + 1) % 256)
        (((wsub v 1 * 12 + 1) % 256 + 12) % 256)
  | .Columns v => columnsLoop winning v
  | .EvenOdd v => decide (winning % 2 = v % 2)
  | .Highlow v =>
      (decide (v = 0) && decide (1 ≤ winning) && decide (winning ≤ 18)) ||
      (decide (v = 1) && decide (19 ≤ winning) && decide (winning ≤ 36))
  | .Redblack v => decide (v = colour)
  | .Split a b => decide (a = winning) || decide (b = winning)
  | .Street a b c => decide (a = winning) || decide (b = winning) || decide (c = winning)
  | .Basket a b c => decide (a = winning) || decide (b = winning) || decide (c = winning)
  | .Topline a b c d =>
      decide (a = winning) || decide (b = winning) || decide (c = winning) || decide (d = winning)
  | .Corner a b c d =>
      decide (a = winning) || decide (b = winning) || decide (c = winning) || decide (d = winning)
  | .Doubleline a b c d e f =>
      decide (a = winning) || decide (b = winning) || decide (c = winning) ||
      decide (d = winning) || decide (e = winning) || decide (f = winning)

/-- The inner `calc_win` helper of `calculate_winnings`. -/
def calc_win (bet : RouletteBet) (won : Bool) : RouletteBetResult :=
  ⟨bet, if won then win_value bet else 0⟩

/-- `RouletteEvaluator::calculate_winnings`: one result per bet, in order. -/
def calculate_winnings (winning colour : Nat) (bets : List RouletteBet) :
    List RouletteBetResult :=
  bets.map (fun bet => calc_win bet (winsB winning colour bet.bet_type))

/-- The payout assigned to a single bet by `calculate_winnings`. -/
def payoutOf (winning colour : Nat) (bet : RouletteBet) : Nat :=
  (calc_win bet (winsB winning colour bet.bet_type)).win

/-- `Roulette::get_number_colour`: 0 for the eighteen red numbers, 1 otherwise. -/
def get_number_colour (number : Nat) : Nat :=
  match number with
  | 1 | 3 | 5 | 7 | 9 | 12 | 14 | 16 | 18
  | 19 | 21 | 23 | 25 | 27 | 30 | 32 | 34 | 36 => 0
  | _ => 1

/-- The `Street` arm of `Roulette::validate_bet_option`, shared with the
`Doubleline` arm (the source calls `validate_bet_option` recursively on
the two three-element slices). -/
def street_valid (a b c : Nat) : Bool :=
  decide (a > 0) && decide (a ≤ 34) && decide (wsub a 1 % 3 = 0) &&
  decide (wsub b a = 1) && decide (wsub c b = 1)

/-- `Roulette::validate_bet_option`.  Rust `&&` binds tighter than `||`,
so the `Split` arm parses as `(range && zero-splits) || mid || bottom`. -/
def validate_bet_option : RouletteBetType → Bool
  | .Straight v => decide (v ≤ 36)
  | .Split a b =>
      ((decide (a ≠ b) && (decide (a ≤ 35) && decide (b ≤ 36)) && decide (b > a)) &&
        (decide (a = 0) && (decide (b = 1) || decide (b = 2) || decide (b = 3)))) ||
      ((decide (a > 0) && decide (a ≤ 33)) &&
        (((decide (b % 3 = 0) && decide (wsub b a = 1)) || decide (wsub b a = 3)) ||
         ((decide (a % 3 = 1) && decide (wsub b a = 1)) || decide (wsub b a = 3)))) ||
      (decide (a ≥ 34) && decide (wsub b a = 1))
  | .Street a b c => street_valid a b c
  | .Basket a b c =>
      decide (a = 0) &&
      ((decide (b = 1) && decide (c = 2)) || (decide (b = 2) && decide (c = 3)))
  | .Topline a b c d =>
      decide (a = 0) && decide (b = 1) && decide (c = 2) && decide (d = 3)
  | .Corner a b c d =>
      decide (a > 0) && decide (a % 3 ≠ 0) &&
      decide (wsub b a = 1) && decide (wsub d c = 1) &&
      decide (wsub d b = 3) && decide (wsub c a = 3)
  | .Doubleline a b c d e f => street_valid a b c && street_valid d e f
  | .Dozens v => decide (v ≥ 1) && decide (v ≤ 3)
  | .Columns v => decide (v ≥ 1) && decide (v ≤ 3)
  | .EvenOdd v => decide (v ≤ 1)
  | .Highlow v => decide (v ≤ 1)
  | .Redblack v => decide (v ≤ 1)

/-- Underflow tracking for the `Street` arm (and the slices of the
`Doubleline` arm): following the source's short-circuit order,
`v[1] - v[0]` is computed once the row guard holds, and `v[2] - v[1]`
only if `v[1] - v[0] == 1`.  (`v[0] - 1` is guarded by `v[0] > 0`.) -/
def street_sub_underflows (a b c : Nat) : Bool :=
  if decide (a > 0) && decide (a ≤ 34) && decide (wsub a 1 % 3 = 0) then
    decide (b < a) || (decide (wsub b a = 1) && decide (c < b))
  else false

/-- Whether evaluating `Roulette::validate_bet_option` executes a `u8`
subtraction whose subtrahend exceeds its minuend — an arithmetic-overflow
panic in a debug build of the source.  The definition follows the
short-circuit evaluation order of each arm:

* `Split`: the zero-split clause has no subtraction; once the middle
  clause's guard `v[0] in 1..=33` (or the bottom clause's `v[0] >= 34`)
  holds, `v[1] - v[0]` is always computed.
* `Corner`: `v[1]-v[0]`, then `v[3]-v[2]`, `v[3]-v[1]`, `v[2]-v[0]`,
  each reached only while the previous comparisons succeeded.
* `Doubleline`: first slice as a `Street`; the second slice is reached
  only if the first is a valid street. -/
def sub_underflows : RouletteBetType → Bool
  | .Split a b =>
      if (decide (a ≠ b) && (decide (a ≤ 35) && decide (b ≤ 36)) && decide (b > a)) &&
          (decide (a = 0) && (decide (b = 1) || decide (b = 2) || decide (b = 3))) then
        false
      else if decide (a > 0) && decide (a ≤ 33) then decide (b < a)
      else if decide (a ≥ 34) then decide (b < a)
      else false
  | .Street a b c => street_sub_underflows a b c
  | .Corner a b c d =>
      if decide (a > 0) && decide (a % 3 ≠ 0) then
        decide (b < a) ||
        (decide (wsub b a = 1) &&
          (decide (d < c) ||
            (decide (wsub d c = 1) &&
              (decide (d < b) ||
                (decide (wsub d b = 3) && decide (c < a))))))
      else false
  | .Doubleline a b c d e f =>
      street_sub_underflows a b c ||
      (street_valid a b c && street_sub_underflows d e f)
  | _ => false

/-- The documented precondition of `validate_bet_option` (`*NOTE*: The
logic expects the elements in a &[u8] array of values to be sorted in
ascending order`): the number array of the bet is non-decreasing. -/
def params_sorted : RouletteBetType → Prop
  | .Split a b => a ≤ b
  | .Street a b c => a ≤ b ∧ b ≤ c
  | .Basket a b c => a ≤ b ∧ b ≤ c
  | .Topline a b c d => a ≤ b ∧ b ≤ c ∧ c ≤ d
  | .Corner a b c d => a ≤ b ∧ b ≤ c ∧ c ≤ d
  | .Doubleline a b c d e f => a ≤ b ∧ b ≤ c ∧ c ≤ d ∧ d ≤ e ∧ e ≤ f
  | _ => True

instance (bt : RouletteBetType) : Decidable (params_sorted bt) := by
  unfold params_sorted
  cases bt <;> infer_instance

/-- `struct Roulette` minus the rng handle (the random source is injected
into `spin` as an explicit argument). -/
structure Roulette where
  history : List Nat
  min_bet_size : Nat
deriving DecidableEq, Repr

/-- `Roulette::new`. -/
def Roulette.new : Roulette := ⟨[], 1⟩

/-- `Roulette::min_bet_for_option`: uniformly 1 for every category. -/
def min_bet_for_option (bt : RouletteBetType) : Nat :=
  match bt with
  | .Straight _ => 1
  | .Split _ _ => 1
  | .Street _ _ _ => 1
  | .Basket _ _ _ => 1
  | .Topline _ _ _ _ => 1
  | .Corner _ _ _ _ => 1
  | .Doubleline _ _ _ _ _ _ => 1
  | .Dozens _ => 1
  | .Columns _ => 1
  | .EvenOdd _ => 1
  | .Highlow _ => 1
  | .Redblack _ => 1

/-- `Roulette::validate_bet_size`.  In Rust `&` binds tighter than `<=`,
so the source computes `(min_bet_for_option(..) & min_bet_size) <= wager`
with a bitwise and. -/
def validate_bet_size (r : Roulette) (bet : RouletteBet) : Bool :=
  decide (Nat.land (min_bet_for_option bet.bet_type) r.min_bet_size ≤ bet.wager)

/-- The error-collecting loop of `Roulette::validate_bets`: one error per
offending bet, geometry checked before bet size, in bet order. -/
def collectErrors (r : Roulette) : List RouletteBet → List PlaceBetError
  | [] => []
  | bet :: rest =>
      if validate_bet_option bet.bet_type = false then
        .InvalidBetOption bet :: collectErrors r rest
      else if validate_bet_size r bet = false then
        .MinBetNotSatisfied bet (r.min_bet_size * min_bet_for_option bet.bet_type)
          :: collectErrors r rest
      else collectErrors r rest

/-- `Roulette::validate_bets`: `Ok(())` when no error was collected. -/
def validate_bets (r : Roulette) (bets : List RouletteBet) :
    Except (List PlaceBetError) Unit :=
  let errors := collectErrors r bets
  if errors.length = 0 then .ok () else .error errors

/-- `Roulette::spin`.  The injected random source is the argument `draw`;
the source's `self.rng.gen_range(0, 36)` draws uniformly from the
half-open range `[0, 36)`, modelled as `draw % 36`.  Returns the new
engine state together with the result. -/
def spin (r : Roulette) (draw : Nat) (bets : List RouletteBet) :
    Roulette × Except (List PlaceBetError) (Nat × List RouletteBetResult) :=
  match validate_bets r bets with
  | .error e => (r, .error e)
  | .ok _ =>
      let number := draw % 36
      let r' : Roulette := { r with history := r.history ++ [number] }
      (r', .ok (number, calculate_winnings number (get_number_colour number) bets))

/-! ## Helper lemmas -/

lemma dozensLoop_iff_fuel :
    ∀ (m w n stop : Nat), stop - n ≤ m →
      (dozensLoop w n stop = true ↔ (n ≤ w ∧ w < stop)) := by
  intro m
  induction m with
  | zero =>
      intro w n stop h
      rw [dozensLoop]
      have hn : ¬ n < stop := by omega
      simp [hn]
      omega
  | succ m ih =>
      intro w n stop h
      rw [dozensLoop]
      by_cases hlt : n < stop
      · simp only [hlt, if_true]
        by_cases hw : w = n
        · simp [hw, hlt]
        · simp only [hw, if_false]
          rw [ih w (n + 1) stop (by omega)]
          omega
      · simp [hlt]
        omega

/-- Loop invariant of the `Dozens` search: it succeeds exactly on the
half-open interval `[n, stop)`. -/
lemma dozensLoop_iff (w n stop : Nat) :
    dozensLoop w n stop = true ↔ (n ≤ w ∧ w < stop) :=
  dozensLoop_iff_fuel (stop - n) w n stop le_rfl

lemma columnsLoop_iff_fuel :
    ∀ (m w n : Nat), 37 - n ≤ m →
      (columnsLoop w n = true ↔ ∃ k, w = n + 3 * k ∧ w ≤ 36) := by
  intro m
  induction m with
  | zero =>
      intro w n h
      rw [columnsLoop]
      have hn : ¬ n ≤ 36 := by omega
      simp [hn]
      rintro k hk
      omega
  | succ m ih =>
      intro w n h
      rw [columnsLoop]
      by_cases hn : n ≤ 36
      · simp only [hn, if_true]
        by_cases hw : w = n
        · subst hw
          constructor
          · intro _
            exact ⟨0, by omega, hn⟩
          · intro _
            simp
        · simp only [hw, if_false]
          rw [ih w (n + 3) (by omega)]
          constructor
          · rintro ⟨k, hk, hle⟩
            exact ⟨k + 1, by omega, hle⟩
          · rintro ⟨k, hk, hle⟩
            cases k with
            | zero => omega
            | succ k => exact ⟨k, by omega, hle⟩
      · simp [hn]
        rintro k hk
        omega

/-- Loop invariant of the `Columns` search: it succeeds exactly on
`{n, n+3, n+6, ...} ∩ [0, 36]`. -/
lemma columnsLoop_iff (w n : Nat) :
    columnsLoop w n = true ↔ ∃ k, w = n + 3 * k ∧ w ≤ 36 :=
  columnsLoop_iff_fuel (37 - n) w n le_rfl

/-- The error-collecting loop is the order-preserving `filterMap` of the
per-bet error (geometry first, then bet size, at most one per bet). -/
lemma collectErrors_eq_filterMap (r : Roulette) (bets : List RouletteBet) :
    collectErrors r bets = bets.filterMap (fun bet =>
      if validate_bet_option bet.bet_type = false then
        some (.InvalidBetOption bet)
      else if validate_bet_size r bet = false then
        some (.MinBetNotSatisfied bet (r.min_bet_size * min_bet_for_option bet.bet_type))
      else none) := by
  induction bets with
  | nil => rfl
  | cons bet rest ih =>
      rw [collectErrors, List.filterMap_cons]
      split_ifs with h1 h2 <;> simp_all

lemma street_sub_underflows_of_sorted (a b c : Nat) (h1 : a ≤ b) (h2 : b ≤ c) :
    street_sub_underflows a b c = false := by
  rw [street_sub_underflows]
  split_ifs with h
  · have hba : ¬ b < a := by omega
    have hcb : ¬ c < b := by omega
    simp [hba, hcb]
  · rfl

/-- Arithmetic characterization of the `Street` arm for `u8` inputs:
the wrapping subtractions cannot actually wrap within its guards. -/
lemma street_valid_iff (a b c : Nat) (ha : a < 256) (hb : b < 256) (hc : c < 256) :
    street_valid a b c = true ↔
      (1 ≤ a ∧ a ≤ 34 ∧ (a - 1) % 3 = 0 ∧ b = a + 1 ∧ c = a + 2) := by
  by_cases a0 : a = 0
  · subst a0
    simp [street_valid]
  · have e1 : (a + 256 - 1) % 256 = a - 1 := by omega
    simp only [street_valid, wsub, Bool.and_eq_true, decide_eq_true_eq]
    rw [e1]
    omega

/-! ## Claims -/

/-- Claim C1, counterexample: with winning number 0 (whose colour is 1),
an EvenOdd(0) bet of wager 10 is paid 20 and a Redblack(1) bet of wager
10 is paid 20 — not 0 as the claim states. -/
theorem c1_zero_loses_cex :
    payoutOf 0 (get_number_colour 0) ⟨.EvenOdd 0, 10⟩ = 20 ∧
    payoutOf 0 (get_number_colour 0) ⟨.Redblack 1, 10⟩ = 20 := by
  constructor <;> rfl

/-- Claim C1, amended: for winning number 0, every Highlow bet loses,
but EvenOdd(v) wins iff v is even (the code compares `winning % 2` with
`v % 2` and has no zero exclusion, so in general EvenOdd(v) wins iff
`winning % 2 == v % 2`), and Redblack(v) wins iff v = 1, because
`get_number_colour` gives 0 the colour 1 (black). -/
theorem c1_zero_number_amended (v w : Nat) :
    winsB 0 (get_number_colour 0) (.Highlow v) = false ∧
    (winsB 0 (get_number_colour 0) (.EvenOdd v) = true ↔ v % 2 = 0) ∧
    (winsB 0 (get_number_colour 0) (.Redblack v) = true ↔ v = 1) ∧
    (winsB w (get_number_colour w) (.EvenOdd v) = true ↔ w % 2 = v % 2) := by
  have h0 : get_number_colour 0 = 1 := rfl
  rw [h0]
  refine ⟨?_, ?_, ?_, ?_⟩
  · simp [winsB]
  · simp [winsB]
    omega
  · simp [winsB]
  · simp [winsB]

/-- Claim C2, counterexample: the validator accepts Split([33,36])
(which the claim declares illegal) and also accepts Split([36,37]),
whose second number is beyond the table's 36. -/
theorem c2_split_cex :
    validate_bet_option (.Split 33 36) = true ∧
    validate_bet_option (.Split 36 37) = true := by
  constructor <;> rfl

/-- Claim C2, amended: for `u8` pairs, the validator accepts Split([a,b])
iff [a,b] is a zero split (0-1, 0-2, 0-3); or 1 ≤ a ≤ 33 and either
b = a+3 (vertical, so Split([33,36]) is legal) or b = a+1 with a not a
right-column number (a+1 divisible by 3 or a ≡ 1 mod 3); or a ≥ 34 and
b ≡ a+1 (mod 256) — the bottom-edge clause has no upper bound, so
ascending/≤ 36 range checking only guards the zero-split clause and e.g.
Split([36,37]) is accepted. -/
theorem c2_split_amended (a b : Nat) (ha : a < 256) (hb : b < 256) :
    validate_bet_option (.Split a b) = true ↔
      (a = 0 ∧ (b = 1 ∨ b = 2 ∨ b = 3)) ∨
      (1 ≤ a ∧ a ≤ 33 ∧ (b = a + 3 ∨ (b = a + 1 ∧ ((a + 1) % 3 = 0 ∨ a % 3 = 1)))) ∨
      (34 ≤ a ∧ b = (a + 1) % 256) := by
  simp only [validate_bet_option, wsub, Bool.or_eq_true, Bool.and_eq_true,
    decide_eq_true_eq]
  omega

/-- Witness for C2's amended theorem at the boundary pair [34,35]. -/
theorem c2_split_amended_witness :
    validate_bet_option (.Split 34 35) = true :=
  (c2_split_amended 34 35 (by norm_num) (by norm_num)).mpr
    (Or.inr (Or.inr ⟨by norm_num, by norm_num⟩))

/-- Claim C3, counterexample: the validator accepts
Doubleline([1,2,3,7,8,9]) although the second street does not start at
1 + 3 — the two streets need not be adjacent. -/
theorem c3_doubleline_cex :
    validate_bet_option (.Doubleline 1 2 3 7 8 9) = true ∧ (7 : Nat) ≠ 1 + 3 := by
  constructor
  · rfl
  · norm_num

/-- Claim C3, amended: the validator accepts Doubleline([a,b,c,d,e,f])
iff [a,b,c] is a valid Street and [d,e,f] is a valid Street; the
adjacency condition d = a + 3 is not checked, so any two valid streets
are accepted. -/
theorem c3_doubleline_amended (a b c d e f : Nat)
    (ha : a < 256) (hb : b < 256) (hc : c < 256)
    (hd : d < 256) (he : e < 256) (hf : f < 256) :
    validate_bet_option (.Doubleline a b c d e f) = true ↔
      ((1 ≤ a ∧ a ≤ 34 ∧ (a - 1) % 3 = 0 ∧ b = a + 1 ∧ c = a + 2) ∧
       (1 ≤ d ∧ d ≤ 34 ∧ (d - 1) % 3 = 0 ∧ e = d + 1 ∧ f = d + 2)) := by
  simp only [validate_bet_option, Bool.and_eq_true]
  rw [street_valid_iff a b c ha hb hc, street_valid_iff d e f hd he hf]

/-- Witness for C3's amended theorem on two non-adjacent streets. -/
theorem c3_doubleline_amended_witness :
    validate_bet_option (.Doubleline 1 2 3 7 8 9) = true :=
  (c3_doubleline_amended 1 2 3 7 8 9 (by norm_num) (by norm_num) (by norm_num)
      (by norm_num) (by norm_num) (by norm_num)).mpr
    ⟨⟨by norm_num, by norm_num, by norm_num, by norm_num, by norm_num⟩,
     ⟨by norm_num, by norm_num, by norm_num, by norm_num, by norm_num⟩⟩

/-- Claim C4, counterexample: on the unsorted pairs the claim itself
allows — Split([2,1]) and Corner([5,4,8,9]) — the validator executes a
`u8` subtraction whose subtrahend exceeds its minuend (an
arithmetic-overflow panic in a debug build). -/
theorem c4_underflow_cex :
    sub_underflows (.Split 2 1) = true ∧
    sub_underflows (.Corner 5 4 8 9) = true := by
  constructor <;> rfl

/-- Claim C4, amended: `validate_bet_option` is a total function (it is
defined for every variant and parameter combination and yields a
boolean), but an unsorted number array can make a `u8` subtraction in
the Split, Street, Corner or Doubleline branches underflow; when the
array is sorted in ascending order — the function's documented
precondition — no executed subtraction underflows. -/
theorem c4_sorted_no_underflow (bt : RouletteBetType) (h : params_sorted bt) :
    sub_underflows bt = false := by
  cases bt with
  | Split a b =>
      simp only [params_sorted] at h
      rw [sub_underflows]
      split_ifs with h1 h2 h3
      · rfl
      · simp
        omega
      · simp
        omega
      · rfl
  | Street a b c =>
      simp only [params_sorted] at h
      exact street_sub_underflows_of_sorted a b c h.1 h.2
  | Corner a b c d =>
      simp only [params_sorted] at h
      rw [sub_underflows]
      split_ifs with h1
      · have hba : ¬ b < a := by omega
        have hdc : ¬ d < c := by omega
        have hdb : ¬ d < b := by omega
        have hca : ¬ c < a := by omega
        simp [hba, hdc, hdb, hca]
      · rfl
  | Doubleline a b c d e f =>
      simp only [params_sorted] at h
      rw [sub_underflows]
      rw [street_sub_underflows_of_sorted a b c h.1 h.2.1,
        street_sub_underflows_of_sorted d e f h.2.2.2.1 h.2.2.2.2]
      simp
  | Straight v => rfl
  | Basket a b c => rfl
  | Topline a b c d => rfl
  | Dozens v => rfl
  | Columns v => rfl
  | EvenOdd v => rfl
  | Highlow v => rfl
  | Redblack v => rfl

/-- Witness for C4's amended theorem on the sorted pair [1,2]. -/
theorem c4_sorted_no_underflow_witness :
    sub_underflows (.Split 1 2) = false :=
  c4_sorted_no_underflow (.Split 1 2) (by decide)

/-- Claim C5: the batch-validation semantics of `spin` — the collected
errors are exactly the order-preserving per-bet `filterMap` (so every
offending bet contributes its error, not only the first, in bet order);
when any error exists, `spin` returns them all as one `Err` and the
engine state (history included) is returned unchanged, with no number
drawn; when no error exists, the only state change is appending the
drawn number to the history. -/
theorem c5_spin_validation (r : Roulette) (draw : Nat) (bets : List RouletteBet) :
    (collectErrors r bets = bets.filterMap (fun bet =>
        if validate_bet_option bet.bet_type = false then
          some (.InvalidBetOption bet)
        else if validate_bet_size r bet = false then
          some (.MinBetNotSatisfied bet (r.min_bet_size * min_bet_for_option bet.bet_type))
        else none)) ∧
    (collectErrors r bets ≠ [] →
      spin r draw bets = (r, .error (collectErrors r bets))) ∧
    (collectErrors r bets = [] →
      spin r draw bets =
        ({ r with history := r.history ++ [draw % 36] },
          .ok (draw % 36,
            calculate_winnings (draw % 36) (get_number_colour (draw % 36)) bets))) := by
  refine ⟨collectErrors_eq_filterMap r bets, ?_, ?_⟩
  · intro h
    have hlen : ¬ (collectErrors r bets).length = 0 := by
      simpa [List.length_eq_zero] using h
    simp [spin, validate_bets, hlen]
  · intro h
    simp [spin, validate_bets, h]

/-- Witness for C5 on a batch with two offending bets and one legal one:
both errors are returned, in order, and the engine state is unchanged. -/
theorem c5_spin_validation_witness :
    spin Roulette.new 5 [⟨.Straight 37, 1⟩, ⟨.Straight 0, 1⟩, ⟨.Corner 3 4 6 7, 2⟩] =
      (Roulette.new, .error [.InvalidBetOption ⟨.Straight 37, 1⟩,
        .InvalidBetOption ⟨.Corner 3 4 6 7, 2⟩]) := by
  have h := (c5_spin_validation Roulette.new 5
    [⟨.Straight 37, 1⟩, ⟨.Straight 0, 1⟩, ⟨.Corner 3 4 6 7, 2⟩]).2.1 (by decide)
  rw [h]
  rfl

/-- Claim C6 (code bug): the winning number of every successful spin is
strictly below 36, whatever the injected random draw — the source's
`gen_range(0, 36)` is a half-open range, so the spec's 37th outcome, 36,
can never be drawn. -/
theorem c6_spin_number_lt_36 (r r' : Roulette) (draw : Nat)
    (bets : List RouletteBet) (n : Nat) (res : List RouletteBetResult)
    (h : spin r draw bets = (r', .ok (n, res))) : n < 36 := by
  unfold spin at h
  cases hv : validate_bets r bets with
  | error e =>
      rw [hv] at h
      simp at h
  | ok u =>
      rw [hv] at h
      simp only [Prod.mk.injEq, Except.ok.injEq] at h
      have : n = draw % 36 := by
        exact (h.2.1).symm
      omega

/-- Witness for C6: a concrete successful spin with draw 0. -/
theorem c6_spin_number_lt_36_witness : (0 : Nat) < 36 :=
  c6_spin_number_lt_36 Roulette.new ⟨[0], 1⟩ 0 [] 0 [] rfl

/-- Claim C7: whenever `wager * 36` fits in a `u64`, the payout computed
by the evaluator is exactly 0 on a loss and exactly wager times the
fixed per-category multiplier on a win, with multipliers 36, 18, 12, 12,
9, 9, 6, 3, 3, 2, 2, 2 for Straight, Split, Street, Basket, Topline,
Corner, Doubleline, Dozens, Columns, EvenOdd, Highlow, Redblack.  The
multiplier depends only on the category (the match below ignores every
parameter), and as a `Nat` the payout is never negative or fractional. -/
theorem c7_payout_multipliers (winning colour : Nat) (b : RouletteBet)
    (h : b.wager * 36 < 2 ^ 64) :
    payoutOf winning colour b =
      if winsB winning colour b.bet_type = true then
        b.wager * (match b.bet_type with
          | .Straight _ => 36
          | .Split _ _ => 18
          | .Street _ _ _ => 12
          | .Basket _ _ _ => 12
          | .Topline _ _ _ _ => 9
          | .Corner _ _ _ _ => 9
          | .Doubleline _ _ _ _ _ _ => 6
          | .Dozens _ => 3
          | .Columns _ => 3
          | .EvenOdd _ => 2
          | .Highlow _ => 2
          | .Redblack _ => 2)
      else 0 := by
  obtain ⟨bt, wager⟩ := b
  simp only at h
  cases bt <;>
    simp only [payoutOf, calc_win, win_value] <;>
    split_ifs <;>
    first
      | rfl
      | omega

/-- Witness for C7: wager 10 on Straight(1) at winning number 1 pays 360. -/
theorem c7_payout_multipliers_witness :
    payoutOf 1 0 ⟨.Straight 1, 10⟩ =
      if winsB 1 0 (.Straight 1) = true then 10 * 36 else 0 :=
  c7_payout_multipliers 1 0 ⟨.Straight 1, 10⟩ (by norm_num)

/-- Claim C8: for n in 1..=34, the validator accepts
Street([n, n+1, n+2]) exactly when (n-1) mod 3 = 0. -/
theorem c8_street_characterization (n : Nat) (h1 : 1 ≤ n) (h2 : n ≤ 34) :
    validate_bet_option (.Street n (n + 1) (n + 2)) = true ↔ (n - 1) % 3 = 0 := by
  have h := street_valid_iff n (n + 1) (n + 2) (by omega) (by omega) (by omega)
  simp only [validate_bet_option]
  rw [h]
  omega

/-- Witness for C8 at n = 1: Street([1,2,3]) is legal. -/
theorem c8_street_characterization_witness :
    validate_bet_option (.Street 1 (1 + 1) (1 + 2)) = true :=
  (c8_street_characterization 1 (by norm_num) (by norm_num)).mpr (by norm_num)

/-- Claim C9: for a selector g in {1,2,3} and a winning number w in
0..=36, a Dozens(g) bet wins iff (g-1)*12+1 ≤ w ≤ g*12, and a Columns(g)
bet wins iff w is positive, at most 36, and g plus a non-negative
multiple of 3 — so winning number 0 loses both. -/
theorem c9_dozens_columns (g w : Nat) (hg1 : 1 ≤ g) (hg3 : g ≤ 3) (hw : w ≤ 36) :
    (winsB w (get_number_colour w) (.Dozens g) = true ↔
      ((g - 1) * 12 + 1 ≤ w ∧ w ≤ g * 12)) ∧
    (winsB w (get_number_colour w) (.Columns g) = true ↔
      (1 ≤ w ∧ w ≤ 36 ∧ ∃ k, w = g + 3 * k)) := by
  constructor
  · simp only [winsB]
    rw [dozensLoop_iff]
    interval_cases g <;> simp [wsub] <;> omega
  · simp only [winsB]
    rw [columnsLoop_iff]
    constructor
    · rintro ⟨k, hk, hle⟩
      exact ⟨by omega, hle, k, hk⟩
    · rintro ⟨hw1, hw2, k, hk⟩
      exact ⟨k, hk, hw⟩

/-- Witness for C9 at g = 1, w = 12 (the inclusive dozen boundary). -/
theorem c9_dozens_columns_witness :
    winsB 12 (get_number_colour 12) (.Dozens 1) = true :=
  ((c9_dozens_columns 1 12 (by norm_num) (by norm_num) (by norm_num)).1).mpr
    (by norm_num)

/-- Claim C10: the Corner rule has no upper bound — for every n ≥ 1 with
n mod 3 ≠ 0 and n + 4 ≤ 255, the validator accepts
Corner([n, n+1, n+3, n+4]), including blocks such as Corner([34,35,37,38])
whose numbers 37 and 38 lie outside the 0–36 table. -/
theorem c10_corner_no_upper_bound (n : Nat) (h1 : 1 ≤ n) (h2 : n % 3 ≠ 0)
    (h3 : n + 4 ≤ 255) :
    validate_bet_option (.Corner n (n + 1) (n + 3) (n + 4)) = true := by
  simp only [validate_bet_option, wsub, Bool.and_eq_true, decide_eq_true_eq]
  omega

/-- Witness for C10 at n = 34: the off-table block [34,35,37,38]. -/
theorem c10_corner_no_upper_bound_witness :
    validate_bet_option (.Corner 34 (34 + 1) (34 + 3) (34 + 4)) = true :=
  c10_corner_no_upper_bound 34 (by norm_num) (by norm_num) (by norm_num)
